import Mathlib

/-!
Shallow embedding of the Stripe webhook billing reconciler of
`src/app/api/stripe/webhook/route.ts` (the app-router variant, which the
specification treats as the core), together with the multi-secret
signature-verification loop of the sibling variant (`src/unnamed/part_005`).

Modelling conventions:
* Plans and statuses are plain strings, as in the TypeScript source.
* The Supabase REST store is a record of three tables: `subscriptions`
  (list of rows), `profiles` (list of rows) and the `stripe_events` ledger
  (list of event ids).  PostgREST `PATCH ...?...=eq.X` updates every
  matching row; `POST ...?on_conflict=email` with `merge-duplicates`
  replaces the provided columns of the row with that email (columns absent
  from the body, such as `current_period_end` in the checkout upsert, are
  preserved) or inserts a new row.
* A `log` field records every PATCH issued against the `profiles` table
  (the entitlement writes), as an observational trace.
* `supabaseFetch` throws when the HTTP response is not ok; this is modelled
  by a `Faults` record saying which class of store call fails, and by the
  operations returning `Except Store α` whose error value carries the store
  at the moment of the throw (a failed call performs no write).
* `new Date(sec * 1000).toISOString()` is abstracted to the raw seconds
  value (no claim depends on the rendering of the timestamp), and JavaScript
  `toLowerCase` is modelled by mapping `Char.toLower` over the string.
-/

/-- JavaScript truthiness of a nullable string: `null`/`undefined` and the
empty string are falsy. -/
def truthy : Option String → Bool
  | none => false
  | some s => s ≠ ""

/-- JavaScript `a || b` on nullable strings. -/
def jsOr (a b : Option String) : Option String :=
  if truthy a then a else b

/-- JavaScript `a ?? b` on nullable strings (nullish coalescing: an empty
string on the left is kept). -/
def coalesce (a b : Option String) : Option String :=
  match a with
  | some v => some v
  | none => b

/-- JavaScript string interpolation of a nullable string: `null` prints as
the four characters `null`. -/
def jsStr : Option String → String
  | none => "null"
  | some s => s

/-- The `PAID_PLANS` list from route.ts line 14. -/
def PAID_PLANS : List String := ["starter", "growth", "business"]

/-- JavaScript `toLowerCase`, modelled character-wise over the string's
character list. -/
def strLower (s : String) : String := String.mk (s.data.map Char.toLower)

/-- A whitespace character (the ASCII range JavaScript `trim` removes). -/
def isWS (c : Char) : Bool := c.val ≤ 32

/-- JavaScript `trim`: drop leading and trailing whitespace. -/
def strTrim (s : String) : String :=
  String.mk (((s.data.dropWhile isWS).reverse.dropWhile isWS).reverse)

/-- Function `normalizePlan` from route.ts lines 22-26: stringify (null becomes the
empty string), lowercase, trim, and keep the value only if it is one of the
fixed paid tiers, otherwise `"pending"`. -/
def normalizePlan (raw : Option String) : String :=
  let p := strTrim (strLower (raw.getD ("")))
  if PAID_PLANS.contains p then p else ("pending")

/-- Function `isPaidStatus` from route.ts lines 28-30. -/
def isPaidStatus (status : String) : Bool :=
  status = "active" || status = "trialing"

/-- A row of the `subscriptions` table (the SubscriptionRecord). -/
structure SubRow where
  email : String
  user_id : Option String
  stripe_customer_id : Option String
  stripe_subscription_id : Option String
  plan : String
  status : String
  current_period_end : Option Nat
deriving DecidableEq, Repr

/-- A row of the `profiles` table (the ProfileEntitlement). -/
structure ProfileRow where
  id : String
  email : String
  plan : String
deriving DecidableEq, Repr

/-- The key a `profiles` PATCH is addressed by: `id=eq.userId` or
`email=eq.email`. -/
inductive ProfileKey where
  | byId (userId : String)
  | byEmail (email : String)
deriving DecidableEq, Repr

/-- The external keyed-record store: the two tables, the processed-event
ledger, and an observational log of the entitlement PATCHes issued. -/
structure Store where
  subs : List SubRow
  profiles : List ProfileRow
  events : List String
  log : List (ProfileKey × String)
deriving DecidableEq, Repr

/-- Which classes of `supabaseFetch` calls fail (throw) in this invocation.
Each flag covers one call site class: the `stripe_events` select, the
`stripe_events` insert, the `subscriptions` select, the `subscriptions`
upsert/patch, and the `profiles` patch. -/
structure Faults where
  ledgerRead : Bool
  ledgerWrite : Bool
  findSub : Bool
  subWrite : Bool
  entWrite : Bool
deriving DecidableEq, Repr

/-- The fault-free invocation. -/
def noFaults : Faults := ⟨false, false, false, false, false⟩

/-- Merge-duplicates upsert keyed on the unique `email` column, as issued by
`upsertSubscriptionByEmail` (route.ts lines 65-78).  The checkout call site
does not send `current_period_end`, so on conflict that column of the
existing row is preserved; all other columns are replaced. -/
def upsertByEmailList (row : SubRow) : List SubRow → List SubRow
  | [] => [row]
  | r :: rs =>
    if r.email = row.email then
      { row with current_period_end := r.current_period_end } :: rs
    else
      r :: upsertByEmailList row rs

/-- Function `upsertSubscriptionByEmail` (route.ts lines 65-78): POST to
`subscriptions?on_conflict=email`; throws if the store call fails. -/
def upsertSubscriptionByEmail (f : Faults) (row : SubRow) (st : Store) :
    Except Store Store :=
  if f.subWrite then .error st
  else .ok { st with subs := upsertByEmailList row st.subs }

/-- Function `patchSubscriptionBySubId` (route.ts lines 80-86): PATCH every
`subscriptions` row whose `stripe_subscription_id` equals the given id,
applying the given column updates. -/
def patchSubscriptionBySubId (f : Faults) (subId : String)
    (upd : SubRow → SubRow) (st : Store) : Except Store Store :=
  if f.subWrite then .error st
  else .ok { st with
    subs := st.subs.map (fun r =>
      if r.stripe_subscription_id = some subId then upd r else r) }

/-- The identity pair returned by `findSubscriptionRowBySubId`. -/
structure JoinInfo where
  email : Option String
  userId : Option String
deriving DecidableEq, Repr

/-- Function `findSubscriptionRowBySubId` (route.ts lines 88-96): select
`email,user_id` of the first row with the given subscription id; both
components are null when no row matches. -/
def findSubscriptionRowBySubId (f : Faults) (subId : String) (st : Store) :
    Except Store JoinInfo :=
  if f.findSub then .error st
  else
    match st.subs.find? (fun r => r.stripe_subscription_id = some subId) with
    | none => .ok ⟨none, none⟩
    | some r => .ok ⟨some r.email, r.user_id⟩

/-- Function `updateProfilePlanById` (route.ts lines 98-102): PATCH
`profiles?id=eq.userId` setting `plan`. -/
def updateProfilePlanById (f : Faults) (userId plan : String) (st : Store) :
    Except Store Store :=
  if f.entWrite then .error st
  else .ok { st with
    profiles := st.profiles.map (fun p =>
      if p.id = userId then { p with plan := plan } else p),
    log := st.log ++ [(ProfileKey.byId userId, plan)] }

/-- Function `updateProfilePlanByEmail` (route.ts lines 104-110): PATCH
`profiles?email=eq.email` setting `plan`. -/
def updateProfilePlanByEmail (f : Faults) (email plan : String) (st : Store) :
    Except Store Store :=
  if f.entWrite then .error st
  else .ok { st with
    profiles := st.profiles.map (fun p =>
      if p.email = email then { p with plan := plan } else p),
    log := st.log ++ [(ProfileKey.byEmail email, plan)] }

/-- Function `setUserPlan` (route.ts lines 112-115): patch by user id when truthy,
else by email when truthy, else do nothing. -/
def setUserPlan (f : Faults) (userId email : Option String) (plan : String)
    (st : Store) : Except Store Store :=
  if truthy userId then updateProfilePlanById f (jsStr userId) plan st
  else if truthy email then updateProfilePlanByEmail f (jsStr email) plan st
  else .ok st

/-- Function `alreadyProcessed` (route.ts lines 124-134): select the event id from
the `stripe_events` ledger; any thrown error is caught and treated as not processed. -/
def alreadyProcessed (f : Faults) (eventId : String) (st : Store) : Bool :=
  if f.ledgerRead then false else st.events.contains eventId

/-- Function `markProcessed` (route.ts lines 135-141): insert the event id into the
`stripe_events` ledger, swallowing any error (including the primary-key
violation when the id is already present). -/
def markProcessed (f : Faults) (eventId : String) (st : Store) : Store :=
  if f.ledgerWrite || st.events.contains eventId then st
  else { st with events := st.events ++ [eventId] }

/-- The fields of a `Stripe.Checkout.Session` that the handler reads
(route.ts lines 173-214).  Fields whose JavaScript access performs a
`typeof ... === "string"` check (`subscription`, `customer`,
`client_reference_id`) are modelled as already-narrowed nullable strings. -/
structure CheckoutSession where
  customer_details_email : Option String
  customer_email : Option String
  metadata_email : Option String
  client_reference_id : Option String
  metadata_userId : Option String
  metadata_plan : Option String
  subscription : Option String
  customer : Option String
deriving DecidableEq, Repr

/-- The fields of a `Stripe.Subscription` that the handler reads. -/
structure Subscription where
  id : String
  customer : Option String
  metadata_plan : Option String
  status : String
  current_period_end : Option Nat
deriving DecidableEq, Repr

/-- The fields of a `Stripe.Invoice` that the handler reads. -/
structure Invoice where
  subscription : Option String
deriving DecidableEq, Repr

/-- The `data.object` payload of a verified event, tagged by `event.type`
exactly as the `switch` in route.ts lines 168-316 dispatches on it. -/
inductive EventData where
  | checkoutSessionCompleted (session : CheckoutSession)
  | customerSubscriptionUpdated (sub : Subscription)
  | invoicePaymentFailed (invoice : Invoice)
  | invoicePaid (invoice : Invoice)
  | customerSubscriptionDeleted (sub : Subscription)
  | other (eventType : String)
deriving DecidableEq, Repr

/-- A verified Stripe event envelope. -/
structure StripeEvent where
  id : String
  data : EventData
deriving DecidableEq, Repr

/-- The external Stripe API: `stripe.subscriptions.retrieve` used by the
`invoice.paid` branch (route.ts line 283). -/
structure World where
  retrieve : String → Subscription

/-- The store an `Except Store Store` computation ended in, whether it
returned normally or threw. -/
def resultStore : Except Store Store → Store
  | .ok st => st
  | .error st => st

/-- Whether an `Except Store Store` computation threw. -/
def threw : Except Store Store → Bool
  | .ok _ => false
  | .error _ => true

/-- The body of the `switch (event.type)` inside the `try` block of `POST`
(route.ts lines 168-316), one branch per event type; `.error` is a thrown
store error, `.ok` is normal fall-through to `markProcessed`. -/
def processEvent (w : World) (f : Faults) (ev : EventData) (st : Store) :
    Except Store Store :=
  match ev with
  | .checkoutSessionCompleted session =>
    let email := coalesce session.customer_details_email
      (coalesce session.customer_email session.metadata_email)
    let userId := jsOr session.client_reference_id
      (jsOr session.metadata_userId none)
    let subscriptionId := session.subscription
    let customerId := session.customer
    let plan := normalizePlan session.metadata_plan
    if !truthy email && !truthy userId then .ok st
    else
      match upsertSubscriptionByEmail f
        { email := if truthy email then jsStr email
                   else jsStr userId ++ "@unknown.local",
          user_id := userId,
          stripe_customer_id := customerId,
          stripe_subscription_id := subscriptionId,
          plan := plan,
          status := "active",
          current_period_end := none } st with
      | .error st1 => .error st1
      | .ok st1 =>
        if plan ≠ "pending" then setUserPlan f userId email plan st1
        else .ok st1
  | .customerSubscriptionUpdated sub =>
    let subscriptionId := sub.id
    let customerId := sub.customer
    let plan := normalizePlan sub.metadata_plan
    let status := sub.status
    let currentPeriodEnd := sub.current_period_end
    match findSubscriptionRowBySubId f subscriptionId st with
    | .error st1 => .error st1
    | .ok j =>
      match patchSubscriptionBySubId f subscriptionId
        (fun r => { r with
          stripe_customer_id := customerId,
          plan := plan,
          status := status,
          current_period_end := currentPeriodEnd }) st with
      | .error st1 => .error st1
      | .ok st1 =>
        let nextPlan := if isPaidStatus status then plan else ("pending")
        setUserPlan f j.userId j.email nextPlan st1
  | .invoicePaymentFailed invoice =>
    match invoice.subscription with
    | none => .ok st
    | some subscriptionId =>
      match findSubscriptionRowBySubId f subscriptionId st with
      | .error st1 => .error st1
      | .ok j =>
        match patchSubscriptionBySubId f subscriptionId
          (fun r => { r with status := "past_due" }) st with
        | .error st1 => .error st1
        | .ok st1 => setUserPlan f j.userId j.email ("pending") st1
  | .invoicePaid invoice =>
    match invoice.subscription with
    | none => .ok st
    | some subscriptionId =>
      let sub := w.retrieve subscriptionId
      let plan := normalizePlan sub.metadata_plan
      let status := sub.status
      match findSubscriptionRowBySubId f subscriptionId st with
      | .error st1 => .error st1
      | .ok j =>
        match patchSubscriptionBySubId f subscriptionId
          (fun r => { r with plan := plan, status := status }) st with
        | .error st1 => .error st1
        | .ok st1 =>
          let nextPlan := if isPaidStatus status then plan else ("pending")
          setUserPlan f j.userId j.email nextPlan st1
  | .customerSubscriptionDeleted sub =>
    let subscriptionId := sub.id
    match findSubscriptionRowBySubId f subscriptionId st with
    | .error st1 => .error st1
    | .ok j =>
      match patchSubscriptionBySubId f subscriptionId
        (fun r => { r with status := "canceled" }) st with
      | .error st1 => .error st1
      | .ok st1 => setUserPlan f j.userId j.email ("pending") st1
  | .other _ => .ok st

/-- The signature-verification loop of `src/unnamed/part_005` lines 30-41:
try `constructEvent` with each candidate secret in order and keep the first
that verifies.  `ok s` states that the raw body's signature header verifies
under secret `s`. -/
def verifyWithSecrets (secrets : List String) (ok : String → Bool) :
    Option String :=
  secrets.find? ok

/-- The `POST` handler (route.ts lines 143-326).  `sigPresent` is whether
the `stripe-signature` header is present; `secrets`/`ok` model signature
verification (the app-router variant passes the single configured secret,
`part_005` passes the rotation list); `ev` is the event the verifier yields
on success.  Returns the HTTP status and the final store. -/
def POSTHandler (w : World) (f : Faults) (sigPresent : Bool)
    (secrets : List String) (ok : String → Bool) (ev : StripeEvent)
    (st : Store) : Nat × Store :=
  if !sigPresent then (400, st)
  else
    match verifyWithSecrets secrets ok with
    | none => (400, st)
    | some _ =>
      if alreadyProcessed f ev.id st then (200, st)
      else
        match processEvent w f ev.data st with
        | .error st1 => (500, st1)
        | .ok st1 => (200, markProcessed f ev.id st1)

/-- The entitlement PATCHes `setUserPlan` issues, as a function of the
identity pair and the plan. -/
def entLog (userId email : Option String) (plan : String) :
    List (ProfileKey × String) :=
  if truthy userId then [(ProfileKey.byId (jsStr userId), plan)]
  else if truthy email then [(ProfileKey.byEmail (jsStr email), plan)]
  else []

theorem upsertSubscriptionByEmail_noFaults (row : SubRow) (st : Store) :
    upsertSubscriptionByEmail noFaults row st
      = .ok { st with subs := upsertByEmailList row st.subs } := rfl

theorem patchSubscriptionBySubId_noFaults (subId : String)
    (upd : SubRow → SubRow) (st : Store) :
    patchSubscriptionBySubId noFaults subId upd st
      = .ok { st with
          subs := st.subs.map (fun r =>
            if r.stripe_subscription_id = some subId then upd r else r) } := rfl

theorem findSubscriptionRowBySubId_noFaults_none (subId : String) (st : Store)
    (h : st.subs.find? (fun r => r.stripe_subscription_id = some subId)
      = none) :
    findSubscriptionRowBySubId noFaults subId st = .ok ⟨none, none⟩ := by
  simp [findSubscriptionRowBySubId, noFaults, h]

theorem findSubscriptionRowBySubId_noFaults_some (subId : String) (st : Store)
    (r : SubRow)
    (h : st.subs.find? (fun r => r.stripe_subscription_id = some subId)
      = some r) :
    findSubscriptionRowBySubId noFaults subId st
      = .ok ⟨some r.email, r.user_id⟩ := by
  simp [findSubscriptionRowBySubId, noFaults, h]

theorem setUserPlan_noFaults_ok (u e : Option String) (p : String)
    (st : Store) :
    setUserPlan noFaults u e p st
      = .ok (resultStore (setUserPlan noFaults u e p st)) := by
  cases hu : truthy u <;> cases he : truthy e <;>
    simp [setUserPlan, updateProfilePlanById, updateProfilePlanByEmail,
      noFaults, resultStore, hu, he]

theorem setUserPlan_noFaults_log (u e : Option String) (p : String)
    (st : Store) :
    (resultStore (setUserPlan noFaults u e p st)).log
      = st.log ++ entLog u e p := by
  cases hu : truthy u <;> cases he : truthy e <;>
    simp [setUserPlan, updateProfilePlanById, updateProfilePlanByEmail,
      entLog, noFaults, resultStore, hu, he]

theorem setUserPlan_noFaults_subs (u e : Option String) (p : String)
    (st : Store) :
    (resultStore (setUserPlan noFaults u e p st)).subs = st.subs := by
  cases hu : truthy u <;> cases he : truthy e <;>
    simp [setUserPlan, updateProfilePlanById, updateProfilePlanByEmail,
      noFaults, resultStore, hu, he]

theorem setUserPlan_noFaults_events (u e : Option String) (p : String)
    (st : Store) :
    (resultStore (setUserPlan noFaults u e p st)).events = st.events := by
  cases hu : truthy u <;> cases he : truthy e <;>
    simp [setUserPlan, updateProfilePlanById, updateProfilePlanByEmail,
      noFaults, resultStore, hu, he]

theorem setUserPlan_noFaults_okEvents (u e : Option String) (p : String)
    (st st0 : Store) (hev : st.events = st0.events) :
    setUserPlan noFaults u e p st
      = .ok (resultStore (setUserPlan noFaults u e p st)) ∧
    (resultStore (setUserPlan noFaults u e p st)).events = st0.events :=
  ⟨setUserPlan_noFaults_ok u e p st,
    (setUserPlan_noFaults_events u e p st).trans hev⟩

theorem processEvent_noFaults_ok (w : World) (ev : EventData) (st : Store) :
    processEvent w noFaults ev st
      = .ok (resultStore (processEvent w noFaults ev st)) ∧
    (resultStore (processEvent w noFaults ev st)).events = st.events := by
  cases ev with
  | checkoutSessionCompleted s =>
    simp only [processEvent, upsertSubscriptionByEmail_noFaults]
    split
    · simp [resultStore]
    · split
      · exact setUserPlan_noFaults_okEvents _ _ _ _ _ rfl
      · simp [resultStore]
  | customerSubscriptionUpdated sub =>
    cases hf : st.subs.find?
        (fun r => r.stripe_subscription_id = some sub.id) with
    | none =>
      simp only [processEvent, findSubscriptionRowBySubId_noFaults_none _ _ hf,
        patchSubscriptionBySubId_noFaults]
      exact setUserPlan_noFaults_okEvents _ _ _ _ _ rfl
    | some r =>
      simp only [processEvent,
        findSubscriptionRowBySubId_noFaults_some _ _ _ hf,
        patchSubscriptionBySubId_noFaults]
      exact setUserPlan_noFaults_okEvents _ _ _ _ _ rfl
  | invoicePaymentFailed inv =>
    cases hsub : inv.subscription with
    | none => simp [processEvent, hsub, resultStore]
    | some sid =>
      cases hf : st.subs.find?
          (fun r => r.stripe_subscription_id = some sid) with
      | none =>
        simp only [processEvent, hsub,
          findSubscriptionRowBySubId_noFaults_none _ _ hf,
          patchSubscriptionBySubId_noFaults]
        exact setUserPlan_noFaults_okEvents _ _ _ _ _ rfl
      | some r =>
        simp only [processEvent, hsub,
          findSubscriptionRowBySubId_noFaults_some _ _ _ hf,
          patchSubscriptionBySubId_noFaults]
        exact setUserPlan_noFaults_okEvents _ _ _ _ _ rfl
  | invoicePaid inv =>
    cases hsub : inv.subscription with
    | none => simp [processEvent, hsub, resultStore]
    | some sid =>
      cases hf : st.subs.find?
          (fun r => r.stripe_subscription_id = some sid) with
      | none =>
        simp only [processEvent, hsub,
          findSubscriptionRowBySubId_noFaults_none _ _ hf,
          patchSubscriptionBySubId_noFaults]
        exact setUserPlan_noFaults_okEvents _ _ _ _ _ rfl
      | some r =>
        simp only [processEvent, hsub,
          findSubscriptionRowBySubId_noFaults_some _ _ _ hf,
          patchSubscriptionBySubId_noFaults]
        exact setUserPlan_noFaults_okEvents _ _ _ _ _ rfl
  | customerSubscriptionDeleted sub =>
    cases hf : st.subs.find?
        (fun r => r.stripe_subscription_id = some sub.id) with
    | none =>
      simp only [processEvent, findSubscriptionRowBySubId_noFaults_none _ _ hf,
        patchSubscriptionBySubId_noFaults]
      exact setUserPlan_noFaults_okEvents _ _ _ _ _ rfl
    | some r =>
      simp only [processEvent,
        findSubscriptionRowBySubId_noFaults_some _ _ _ hf,
        patchSubscriptionBySubId_noFaults]
      exact setUserPlan_noFaults_okEvents _ _ _ _ _ rfl
  | other t => simp [processEvent, resultStore]

/-- C7: for every entitlement update, when the resolved identity has
`userId` absent but `email` present, the profiles write targets the record
keyed by email; when both `userId` and `email` are present, it targets the
record keyed by `userId`. -/
theorem c7_identity_fallback (u e p : String) (st : Store) :
    (e ≠ "" →
      (resultStore (setUserPlan noFaults none (some e) p st)).log
        = st.log ++ [(ProfileKey.byEmail e, p)]) ∧
    (u ≠ "" →
      (resultStore (setUserPlan noFaults (some u) (some e) p st)).log
        = st.log ++ [(ProfileKey.byId u, p)]) := by
  constructor
  · intro he
    simp [setUserPlan_noFaults_log, entLog, truthy, he, jsStr]
  · intro hu
    simp [setUserPlan_noFaults_log, entLog, truthy, hu, jsStr]

theorem c7_identity_fallback_witness :
    ((resultStore (setUserPlan noFaults none (some ("a@b.c")) ("starter")
        ⟨[], [], [], []⟩)).log
      = [(ProfileKey.byEmail ("a@b.c"), ("starter"))]) ∧
    ((resultStore (setUserPlan noFaults (some ("u1")) (some ("a@b.c"))
        ("starter") ⟨[], [], [], []⟩)).log
      = [(ProfileKey.byId ("u1"), ("starter"))]) :=
  ⟨(c7_identity_fallback ("u1") ("a@b.c") ("starter") ⟨[], [], [], []⟩).1
      (by decide),
   (c7_identity_fallback ("u1") ("a@b.c") ("starter") ⟨[], [], [], []⟩).2
      (by decide)⟩

/-- C2: signature verification tries each configured candidate secret in
order and succeeds on the first match; when the signature matches none of
the candidate secrets the handler responds 400 and performs no store
writes (the store is returned unchanged). -/
theorem c2_signature_gate (w : World) (f : Faults) (ev : StripeEvent)
    (st : Store) (secrets : List String) (ok : String → Bool) :
    (∀ a rest, ok a = true → verifyWithSecrets (a :: rest) ok = some a) ∧
    (∀ a rest, ok a = false →
      verifyWithSecrets (a :: rest) ok = verifyWithSecrets rest ok) ∧
    ((∀ s ∈ secrets, ok s = false) →
      verifyWithSecrets secrets ok = none ∧
      POSTHandler w f true secrets ok ev st = (400, st)) := by
  refine ⟨?_, ?_, ?_⟩
  · intro a rest ha
    simp [verifyWithSecrets, List.find?_cons_of_pos _ ha]
  · intro a rest ha
    have hna : ¬ (ok a = true) := by simp [ha]
    simp [verifyWithSecrets, List.find?_cons_of_neg _ hna]
  · intro hall
    have hnone : verifyWithSecrets secrets ok = none := by
      simp only [verifyWithSecrets, List.find?_eq_none]
      intro s hs
      simp [hall s hs]
    exact ⟨hnone, by simp [POSTHandler, hnone]⟩

theorem c2_signature_gate_witness :
    verifyWithSecrets (("s1") :: ("s2") :: []) (fun _ => false) = none ∧
    POSTHandler ⟨fun sid => ⟨sid, none, none, ("active"), none⟩⟩ noFaults
      true (("s1") :: ("s2") :: []) (fun _ => false)
      ⟨("evt"), EventData.other ("x")⟩ ⟨[], [], [], []⟩
      = (400, ⟨[], [], [], []⟩) :=
  (c2_signature_gate ⟨fun sid => ⟨sid, none, none, ("active"), none⟩⟩
      noFaults ⟨("evt"), EventData.other ("x")⟩ ⟨[], [], [], []⟩
      (("s1") :: ("s2") :: []) (fun _ => false)).2.2
    (by intro s hs; rfl)

/-- C9: a checkout-session-completed event whose plan metadata normalizes
to `"pending"` (missing or unrecognized tier) still upserts the
SubscriptionRecord with status `"active"`, but skips the entitlement write
entirely: the profiles table, the entitlement log and the ledger are left
untouched. -/
theorem c9_checkout_pending_plan_skips_entitlement (w : World)
    (s : CheckoutSession) (st : Store)
    (hp : normalizePlan s.metadata_plan = "pending")
    (he : truthy (coalesce s.customer_details_email
      (coalesce s.customer_email s.metadata_email)) = true) :
    processEvent w noFaults (.checkoutSessionCompleted s) st
      = .ok { st with
              subs := upsertByEmailList
                ({ email := jsStr (coalesce s.customer_details_email
                      (coalesce s.customer_email s.metadata_email)),
                   user_id := jsOr s.client_reference_id
                      (jsOr s.metadata_userId none),
                   stripe_customer_id := s.customer,
                   stripe_subscription_id := s.subscription,
                   plan := "pending",
                   status := "active",
                   current_period_end := none }) st.subs } := by
  simp [processEvent, hp, he, upsertSubscriptionByEmail_noFaults]

theorem c9_checkout_pending_plan_skips_entitlement_witness :
    processEvent ⟨fun sid => ⟨sid, none, none, ("active"), none⟩⟩ noFaults
      (.checkoutSessionCompleted
        ⟨some ("a@b.c"), none, none, some ("u1"), none, some ("gold"),
          some ("sub_1"), some ("cus_1")⟩)
      ⟨[], [⟨("u1"), ("a@b.c"), ("growth")⟩], [], []⟩
      = .ok ⟨[⟨("a@b.c"), some ("u1"), some ("cus_1"), some ("sub_1"),
              ("pending"), ("active"), none⟩],
            [⟨("u1"), ("a@b.c"), ("growth")⟩], [], []⟩ :=
  c9_checkout_pending_plan_skips_entitlement
    ⟨fun sid => ⟨sid, none, none, ("active"), none⟩⟩
    ⟨some ("a@b.c"), none, none, some ("u1"), none, some ("gold"),
      some ("sub_1"), some ("cus_1")⟩
    ⟨[], [⟨("u1"), ("a@b.c"), ("growth")⟩], [], []⟩
    (by decide) (by decide)

/-- C1: for every event that reaches the entitlement update, the plan
written to the profile equals the event's normalized plan tier when its
status is `active` or `trialing`, and `"pending"` for every other status,
regardless of the plan metadata (shown for the subscription-updated branch
and the invoice-paid branch, which carry a status of their own); and
`normalizePlan` maps any string outside the fixed tier enumeration to
`"pending"` and never yields anything outside the enumeration plus
`"pending"`. -/
theorem c1_entitlement_status_gate (w : World) (sub : Subscription)
    (sid : String) (r : SubRow) (u : String) (st : Store)
    (raw : Option String) :
    ((st.subs.find? (fun x => x.stripe_subscription_id = some sub.id)
        = some r) →
      r.user_id = some u → u ≠ "" →
      (resultStore (processEvent w noFaults
          (.customerSubscriptionUpdated sub) st)).log
        = st.log ++ [(ProfileKey.byId u,
            if isPaidStatus sub.status then normalizePlan sub.metadata_plan
            else ("pending"))]) ∧
    ((st.subs.find? (fun x => x.stripe_subscription_id = some sid)
        = some r) →
      r.user_id = some u → u ≠ "" →
      (resultStore (processEvent w noFaults (.invoicePaid ⟨some sid⟩) st)).log
        = st.log ++ [(ProfileKey.byId u,
            if isPaidStatus (w.retrieve sid).status
            then normalizePlan (w.retrieve sid).metadata_plan
            else ("pending"))]) ∧
    (PAID_PLANS.contains (strTrim (strLower (raw.getD ("")))) = false →
      normalizePlan raw = "pending") ∧
    (normalizePlan raw = "pending" ∨
      PAID_PLANS.contains (normalizePlan raw) = true) := by
  refine ⟨?_, ?_, ?_, ?_⟩
  · intro hf hr hu
    simp only [processEvent,
      findSubscriptionRowBySubId_noFaults_some _ _ _ hf,
      patchSubscriptionBySubId_noFaults]
    rw [setUserPlan_noFaults_log]
    simp [entLog, hr, truthy, hu, jsStr]
  · intro hf hr hu
    simp only [processEvent,
      findSubscriptionRowBySubId_noFaults_some _ _ _ hf,
      patchSubscriptionBySubId_noFaults]
    rw [setUserPlan_noFaults_log]
    simp [entLog, hr, truthy, hu, jsStr]
  · intro hc
    have hm : strTrim (strLower (raw.getD (""))) ∉ PAID_PLANS := by
      simpa using hc
    simp [normalizePlan, hm]
  · by_cases hm : strTrim (strLower (raw.getD (""))) ∈ PAID_PLANS
    · exact Or.inr (by simp [normalizePlan, hm])
    · exact Or.inl (by simp [normalizePlan, hm])

theorem c1_entitlement_status_gate_witness :
    (resultStore (processEvent
        ⟨fun sid => ⟨sid, none, some (" Growth "), ("trialing"), none⟩⟩
        noFaults
        (.customerSubscriptionUpdated
          ⟨("sub_1"), none, some (" Growth "), ("trialing"), none⟩)
        ⟨[⟨("a@b.c"), some ("u1"), none, some ("sub_1"), ("growth"),
            ("active"), none⟩],
          [⟨("u1"), ("a@b.c"), ("pending")⟩], [], []⟩)).log
      = [(ProfileKey.byId ("u1"), ("growth"))] :=
  (c1_entitlement_status_gate
      ⟨fun sid => ⟨sid, none, some (" Growth "), ("trialing"), none⟩⟩
      ⟨("sub_1"), none, some (" Growth "), ("trialing"), none⟩
      ("sub_1")
      ⟨("a@b.c"), some ("u1"), none, some ("sub_1"), ("growth"),
        ("active"), none⟩
      ("u1")
      ⟨[⟨("a@b.c"), some ("u1"), none, some ("sub_1"), ("growth"),
          ("active"), none⟩],
        [⟨("u1"), ("a@b.c"), ("pending")⟩], [], []⟩
      (some (" Growth "))).1
    (by decide) (by decide) (by decide)

/-- C6: processing a subscription-deleted event forces the matching
SubscriptionRecord rows' status to `"canceled"`, leaves every
SubscriptionRecord's plan field unchanged, and sets the ProfileEntitlement
plan of the user recovered by the subscription-id join to `"pending"`. -/
theorem c6_subscription_deleted_effect (w : World) (sub : Subscription)
    (r : SubRow) (u : String) (st : Store)
    (hf : st.subs.find? (fun x => x.stripe_subscription_id = some sub.id)
      = some r)
    (hr : r.user_id = some u) (hu : u ≠ "") :
    processEvent w noFaults (.customerSubscriptionDeleted sub) st
      = .ok { st with
          subs := st.subs.map (fun x =>
            if x.stripe_subscription_id = some sub.id
            then { x with status := "canceled" } else x),
          profiles := st.profiles.map (fun p =>
            if p.id = u then { p with plan := "pending" } else p),
          log := st.log ++ [(ProfileKey.byId u, "pending")] } ∧
    (resultStore (processEvent w noFaults
        (.customerSubscriptionDeleted sub) st)).subs.map SubRow.plan
      = st.subs.map SubRow.plan := by
  have hmain : processEvent w noFaults (.customerSubscriptionDeleted sub) st
      = .ok { st with
          subs := st.subs.map (fun x =>
            if x.stripe_subscription_id = some sub.id
            then { x with status := "canceled" } else x),
          profiles := st.profiles.map (fun p =>
            if p.id = u then { p with plan := "pending" } else p),
          log := st.log ++ [(ProfileKey.byId u, "pending")] } := by
    simp only [processEvent,
      findSubscriptionRowBySubId_noFaults_some _ _ _ hf,
      patchSubscriptionBySubId_noFaults]
    simp [setUserPlan, hr, truthy, hu, jsStr, updateProfilePlanById, noFaults]
  refine ⟨hmain, ?_⟩
  rw [hmain]
  simp only [resultStore, List.map_map]
  refine List.map_congr_left ?_
  intro x hx
  by_cases hid : x.stripe_subscription_id = some sub.id <;>
    simp [hid, Function.comp]

theorem c6_subscription_deleted_effect_witness :
    (processEvent ⟨fun sid => ⟨sid, none, none, ("active"), none⟩⟩ noFaults
        (.customerSubscriptionDeleted
          ⟨("sub_1"), none, some ("growth"), ("canceled"), none⟩)
        ⟨[⟨("a@b.c"), some ("u1"), none, some ("sub_1"), ("growth"),
            ("active"), none⟩],
          [⟨("u1"), ("a@b.c"), ("growth")⟩], [], []⟩
      = .ok ⟨[⟨("a@b.c"), some ("u1"), none, some ("sub_1"), ("growth"),
              ("canceled"), none⟩],
            [⟨("u1"), ("a@b.c"), ("pending")⟩], [],
            [(ProfileKey.byId ("u1"), ("pending"))]⟩) ∧
    ((resultStore (processEvent
        ⟨fun sid => ⟨sid, none, none, ("active"), none⟩⟩ noFaults
        (.customerSubscriptionDeleted
          ⟨("sub_1"), none, some ("growth"), ("canceled"), none⟩)
        ⟨[⟨("a@b.c"), some ("u1"), none, some ("sub_1"), ("growth"),
            ("active"), none⟩],
          [⟨("u1"), ("a@b.c"), ("growth")⟩], [], []⟩)).subs.map SubRow.plan
      = [("growth")]) :=
  c6_subscription_deleted_effect
    ⟨fun sid => ⟨sid, none, none, ("active"), none⟩⟩
    ⟨("sub_1"), none, some ("growth"), ("canceled"), none⟩
    ⟨("a@b.c"), some ("u1"), none, some ("sub_1"), ("growth"),
      ("active"), none⟩
    ("u1")
    ⟨[⟨("a@b.c"), some ("u1"), none, some ("sub_1"), ("growth"),
        ("active"), none⟩],
      [⟨("u1"), ("a@b.c"), ("growth")⟩], [], []⟩
    (by decide) (by decide) (by decide)

/-- C4: whenever processing an event throws a store error during steps 3-5,
the handler responds 500 with whatever partial state was written; in
particular, on a subscription-updated event with the profiles write failing
after the subscriptions write succeeded, the response is 500 and the final
store carries the patched SubscriptionRecord but untouched profiles — the
event is not acknowledged with 200 from partial state. -/
theorem c4_write_failure_is_500 (w : World) (f : Faults)
    (ev : StripeEvent) (st : Store) (secrets : List String)
    (ok : String → Bool) (sub : Subscription) (r : SubRow) (u : String)
    (evId : String) :
    (verifyWithSecrets secrets ok ≠ none →
      alreadyProcessed f ev.id st = false →
      threw (processEvent w f ev.data st) = true →
      POSTHandler w f true secrets ok ev st
        = (500, resultStore (processEvent w f ev.data st))) ∧
    (st.subs.find? (fun x => x.stripe_subscription_id = some sub.id)
        = some r →
      r.user_id = some u → u ≠ "" →
      verifyWithSecrets secrets ok ≠ none →
      alreadyProcessed ⟨false, false, false, false, true⟩ evId st = false →
      POSTHandler w ⟨false, false, false, false, true⟩ true secrets ok
          ⟨evId, .customerSubscriptionUpdated sub⟩ st
        = (500, { st with
            subs := st.subs.map (fun x =>
              if x.stripe_subscription_id = some sub.id
              then { x with
                stripe_customer_id := sub.customer,
                plan := normalizePlan sub.metadata_plan,
                status := sub.status,
                current_period_end := sub.current_period_end } else x) })) := by
  constructor
  · intro hsig hdup herr
    obtain ⟨s0, hs0⟩ := Option.ne_none_iff_exists'.mp hsig
    simp only [POSTHandler, hs0, Bool.not_true, hdup]
    cases hpe : processEvent w f ev.data st with
    | ok s1 => rw [hpe] at herr; simp [threw] at herr
    | error s1 => simp [resultStore]
  · intro hf hr hu hsig hdup
    obtain ⟨s0, hs0⟩ := Option.ne_none_iff_exists'.mp hsig
    simp only [POSTHandler, hs0, Bool.not_true, hdup]
    simp [processEvent, findSubscriptionRowBySubId, hf,
      patchSubscriptionBySubId, setUserPlan, hr, truthy, hu, jsStr,
      updateProfilePlanById]

theorem c4_write_failure_is_500_witness :
    POSTHandler ⟨fun sid => ⟨sid, none, none, ("active"), none⟩⟩
        ⟨false, false, false, false, true⟩ true [("whsec")]
        (fun _ => true)
        ⟨("evt_1"), .customerSubscriptionUpdated
          ⟨("sub_1"), some ("cus_1"), some ("growth"), ("active"), none⟩⟩
        ⟨[⟨("a@b.c"), some ("u1"), none, some ("sub_1"), ("starter"),
            ("active"), none⟩],
          [⟨("u1"), ("a@b.c"), ("starter")⟩], [], []⟩
      = (500, ⟨[⟨("a@b.c"), some ("u1"), some ("cus_1"), some ("sub_1"),
              ("growth"), ("active"), none⟩],
            [⟨("u1"), ("a@b.c"), ("starter")⟩], [], []⟩) :=
  (c4_write_failure_is_500
      ⟨fun sid => ⟨sid, none, none, ("active"), none⟩⟩
      ⟨false, false, false, false, true⟩
      ⟨("evt_1"), .customerSubscriptionUpdated
        ⟨("sub_1"), some ("cus_1"), some ("growth"), ("active"), none⟩⟩
      ⟨[⟨("a@b.c"), some ("u1"), none, some ("sub_1"), ("starter"),
          ("active"), none⟩],
        [⟨("u1"), ("a@b.c"), ("starter")⟩], [], []⟩
      [("whsec")] (fun _ => true)
      ⟨("sub_1"), some ("cus_1"), some ("growth"), ("active"), none⟩
      ⟨("a@b.c"), some ("u1"), none, some ("sub_1"), ("starter"),
        ("active"), none⟩
      ("u1") ("evt_1")).2
    (by decide) (by decide) (by decide) (by decide) (by decide)

/-- The handler acknowledged the event as a no-op: HTTP 200, and the
subscriptions table, the profiles table and the entitlement log are exactly
as before the call (only the processed-event ledger may have been marked). -/
def ackNoop (res : Nat × Store) (st : Store) : Prop :=
  res.1 = 200 ∧ res.2.subs = st.subs ∧ res.2.profiles = st.profiles ∧
    res.2.log = st.log

theorem markProcessed_fields (f : Faults) (e : String) (st : Store) :
    (markProcessed f e st).subs = st.subs ∧
    (markProcessed f e st).profiles = st.profiles ∧
    (markProcessed f e st).log = st.log := by
  unfold markProcessed
  split <;> simp

theorem POSTHandler_ack_noop (w : World) (secrets : List String)
    (ok : String → Bool) (evId : String) (ev : EventData) (st : Store)
    (hsig : verifyWithSecrets secrets ok ≠ none)
    (hpe : processEvent w noFaults ev st = .ok st) :
    ackNoop (POSTHandler w noFaults true secrets ok ⟨evId, ev⟩ st) st := by
  obtain ⟨s0, hs0⟩ := Option.ne_none_iff_exists'.mp hsig
  simp only [POSTHandler, hs0, Bool.not_true]
  cases hdup : alreadyProcessed noFaults evId st with
  | true => simp [ackNoop, hdup]
  | false =>
    simp only [hdup, Bool.false_eq_true, if_false, hpe]
    exact ⟨rfl, markProcessed_fields noFaults evId st⟩

/-- C8: events from which no identity can be resolved — a checkout session
with neither a truthy email nor a truthy user id, an invoice event with no
subscription id, or a subscription event whose id joins no stored
SubscriptionRecord — are acknowledged with 200 and write nothing to the
subscriptions or profiles tables. -/
theorem c8_unresolvable_identity_ack (w : World) (secrets : List String)
    (ok : String → Bool) (evId : String) (s : CheckoutSession)
    (sub : Subscription) (st : Store)
    (hsig : verifyWithSecrets secrets ok ≠ none) :
    (truthy (coalesce s.customer_details_email
        (coalesce s.customer_email s.metadata_email)) = false →
      truthy (jsOr s.client_reference_id (jsOr s.metadata_userId none))
          = false →
      ackNoop (POSTHandler w noFaults true secrets ok
        ⟨evId, .checkoutSessionCompleted s⟩ st) st) ∧
    ackNoop (POSTHandler w noFaults true secrets ok
      ⟨evId, .invoicePaymentFailed ⟨none⟩⟩ st) st ∧
    ackNoop (POSTHandler w noFaults true secrets ok
      ⟨evId, .invoicePaid ⟨none⟩⟩ st) st ∧
    (st.subs.find? (fun x => x.stripe_subscription_id = some sub.id)
        = none →
      ackNoop (POSTHandler w noFaults true secrets ok
        ⟨evId, .customerSubscriptionUpdated sub⟩ st) st ∧
      ackNoop (POSTHandler w noFaults true secrets ok
        ⟨evId, .customerSubscriptionDeleted sub⟩ st) st) := by
  refine ⟨?_, ?_, ?_, ?_⟩
  · intro he hu
    refine POSTHandler_ack_noop w secrets ok evId _ st hsig ?_
    simp [processEvent, he, hu]
  · exact POSTHandler_ack_noop w secrets ok evId _ st hsig (by
      simp [processEvent])
  · exact POSTHandler_ack_noop w secrets ok evId _ st hsig (by
      simp [processEvent])
  · intro hf
    have hall : ∀ x ∈ st.subs,
        ¬ (x.stripe_subscription_id = some sub.id) := by
      have := List.find?_eq_none.mp hf
      intro x hx
      simpa using this x hx
    constructor
    · refine POSTHandler_ack_noop w secrets ok evId _ st hsig ?_
      simp only [processEvent, findSubscriptionRowBySubId_noFaults_none _ _ hf,
        patchSubscriptionBySubId_noFaults, setUserPlan, truthy]
      have hmap : st.subs.map (fun x =>
          if x.stripe_subscription_id = some sub.id
          then { x with
            stripe_customer_id := sub.customer,
            plan := normalizePlan sub.metadata_plan,
            status := sub.status,
            current_period_end := sub.current_period_end } else x)
          = st.subs := by
        conv_rhs => rw [← List.map_id st.subs]
        exact List.map_congr_left (fun x hx => by simp [hall x hx])
      simp [hmap]
    · refine POSTHandler_ack_noop w secrets ok evId _ st hsig ?_
      simp only [processEvent, findSubscriptionRowBySubId_noFaults_none _ _ hf,
        patchSubscriptionBySubId_noFaults, setUserPlan, truthy]
      have hmap : st.subs.map (fun x =>
          if x.stripe_subscription_id = some sub.id
          then { x with status := "canceled" } else x)
          = st.subs := by
        conv_rhs => rw [← List.map_id st.subs]
        exact List.map_congr_left (fun x hx => by simp [hall x hx])
      simp [hmap]

theorem c8_unresolvable_identity_ack_witness :
    ackNoop (POSTHandler ⟨fun sid => ⟨sid, none, none, ("active"), none⟩⟩
        noFaults true [("whsec")] (fun _ => true)
        ⟨("evt_1"), .checkoutSessionCompleted
          ⟨none, none, none, none, none, some ("growth"), some ("sub_1"),
            none⟩⟩
        ⟨[], [⟨("u1"), ("a@b.c"), ("starter")⟩], [], []⟩)
      ⟨[], [⟨("u1"), ("a@b.c"), ("starter")⟩], [], []⟩ :=
  (c8_unresolvable_identity_ack
      ⟨fun sid => ⟨sid, none, none, ("active"), none⟩⟩
      [("whsec")] (fun _ => true) ("evt_1")
      ⟨none, none, none, none, none, some ("growth"), some ("sub_1"), none⟩
      ⟨("sub_1"), none, none, ("active"), none⟩
      ⟨[], [⟨("u1"), ("a@b.c"), ("starter")⟩], [], []⟩
      (by decide)).1 (by decide) (by decide)

/-- C5: the entitlement value the handler computes and writes for an event
is derived from the event's own payload and the subscriptions-table join
only: two fault-free runs of the same event on stores that differ only in
the stored profile plans issue exactly the same entitlement writes. -/
theorem c5_entitlement_independent_of_stored_profile_plan (w : World)
    (ev : EventData) (st1 st2 : Store)
    (hs : st1.subs = st2.subs) (he : st1.events = st2.events)
    (hl : st1.log = st2.log)
    (hp : st1.profiles.map (fun p => (p.id, p.email))
      = st2.profiles.map (fun p => (p.id, p.email))) :
    (resultStore (processEvent w noFaults ev st1)).log
      = (resultStore (processEvent w noFaults ev st2)).log := by
  cases ev with
  | checkoutSessionCompleted s =>
    simp only [processEvent, upsertSubscriptionByEmail_noFaults]
    cases hid : (!truthy (coalesce s.customer_details_email
        (coalesce s.customer_email s.metadata_email)) &&
      !truthy (jsOr s.client_reference_id (jsOr s.metadata_userId none)))
        with
    | true => simp [hid, resultStore, hl]
    | false =>
      by_cases hplan : normalizePlan s.metadata_plan = "pending"
      · simp [hid, hplan, resultStore, hl]
      · simp [hid, hplan, setUserPlan_noFaults_log, hl]
  | customerSubscriptionUpdated sub =>
    have hf12 : st1.subs.find?
        (fun r => r.stripe_subscription_id = some sub.id)
      = st2.subs.find?
        (fun r => r.stripe_subscription_id = some sub.id) := by rw [hs]
    cases hf : st2.subs.find?
        (fun r => r.stripe_subscription_id = some sub.id) with
    | none =>
      simp only [processEvent,
        findSubscriptionRowBySubId_noFaults_none _ _ (hf12.trans hf),
        findSubscriptionRowBySubId_noFaults_none _ _ hf,
        patchSubscriptionBySubId_noFaults, setUserPlan_noFaults_log]
      simp [hl]
    | some r =>
      simp only [processEvent,
        findSubscriptionRowBySubId_noFaults_some _ _ _ (hf12.trans hf),
        findSubscriptionRowBySubId_noFaults_some _ _ _ hf,
        patchSubscriptionBySubId_noFaults, setUserPlan_noFaults_log]
      simp [hl]
  | invoicePaymentFailed inv =>
    cases hsub : inv.subscription with
    | none => simp [processEvent, hsub, resultStore, hl]
    | some sid =>
      have hf12 : st1.subs.find?
          (fun r => r.stripe_subscription_id = some sid)
        = st2.subs.find?
          (fun r => r.stripe_subscription_id = some sid) := by rw [hs]
      cases hf : st2.subs.find?
          (fun r => r.stripe_subscription_id = some sid) with
      | none =>
        simp only [processEvent, hsub,
          findSubscriptionRowBySubId_noFaults_none _ _ (hf12.trans hf),
          findSubscriptionRowBySubId_noFaults_none _ _ hf,
          patchSubscriptionBySubId_noFaults, setUserPlan_noFaults_log]
        simp [hl]
      | some r =>
        simp only [processEvent, hsub,
          findSubscriptionRowBySubId_noFaults_some _ _ _ (hf12.trans hf),
          findSubscriptionRowBySubId_noFaults_some _ _ _ hf,
          patchSubscriptionBySubId_noFaults, setUserPlan_noFaults_log]
        simp [hl]
  | invoicePaid inv =>
    cases hsub : inv.subscription with
    | none => simp [processEvent, hsub, resultStore, hl]
    | some sid =>
      have hf12 : st1.subs.find?
          (fun r => r.stripe_subscription_id = some sid)
        = st2.subs.find?
          (fun r => r.stripe_subscription_id = some sid) := by rw [hs]
      cases hf : st2.subs.find?
          (fun r => r.stripe_subscription_id = some sid) with
      | none =>
        simp only [processEvent, hsub,
          findSubscriptionRowBySubId_noFaults_none _ _ (hf12.trans hf),
          findSubscriptionRowBySubId_noFaults_none _ _ hf,
          patchSubscriptionBySubId_noFaults, setUserPlan_noFaults_log]
        simp [hl]
      | some r =>
        simp only [processEvent, hsub,
          findSubscriptionRowBySubId_noFaults_some _ _ _ (hf12.trans hf),
          findSubscriptionRowBySubId_noFaults_some _ _ _ hf,
          patchSubscriptionBySubId_noFaults, setUserPlan_noFaults_log]
        simp [hl]
  | customerSubscriptionDeleted sub =>
    have hf12 : st1.subs.find?
        (fun r => r.stripe_subscription_id = some sub.id)
      = st2.subs.find?
        (fun r => r.stripe_subscription_id = some sub.id) := by rw [hs]
    cases hf : st2.subs.find?
        (fun r => r.stripe_subscription_id = some sub.id) with
    | none =>
      simp only [processEvent,
        findSubscriptionRowBySubId_noFaults_none _ _ (hf12.trans hf),
        findSubscriptionRowBySubId_noFaults_none _ _ hf,
        patchSubscriptionBySubId_noFaults, setUserPlan_noFaults_log]
      simp [hl]
    | some r =>
      simp only [processEvent,
        findSubscriptionRowBySubId_noFaults_some _ _ _ (hf12.trans hf),
        findSubscriptionRowBySubId_noFaults_some _ _ _ hf,
        patchSubscriptionBySubId_noFaults, setUserPlan_noFaults_log]
      simp [hl]
  | other t => simp [processEvent, resultStore, hl]

theorem c5_entitlement_independent_witness :
    (resultStore (processEvent
        ⟨fun sid => ⟨sid, none, none, ("active"), none⟩⟩ noFaults
        (.customerSubscriptionUpdated
          ⟨("sub_1"), none, some ("starter"), ("past_due"), none⟩)
        ⟨[⟨("a@b.c"), some ("u1"), none, some ("sub_1"), ("growth"),
            ("active"), none⟩],
          [⟨("u1"), ("a@b.c"), ("growth")⟩], [], []⟩)).log
      = (resultStore (processEvent
        ⟨fun sid => ⟨sid, none, none, ("active"), none⟩⟩ noFaults
        (.customerSubscriptionUpdated
          ⟨("sub_1"), none, some ("starter"), ("past_due"), none⟩)
        ⟨[⟨("a@b.c"), some ("u1"), none, some ("sub_1"), ("growth"),
            ("active"), none⟩],
          [⟨("u1"), ("a@b.c"), ("business")⟩], [], []⟩)).log :=
  c5_entitlement_independent_of_stored_profile_plan
    ⟨fun sid => ⟨sid, none, none, ("active"), none⟩⟩
    (.customerSubscriptionUpdated
      ⟨("sub_1"), none, some ("starter"), ("past_due"), none⟩)
    ⟨[⟨("a@b.c"), some ("u1"), none, some ("sub_1"), ("growth"),
        ("active"), none⟩],
      [⟨("u1"), ("a@b.c"), ("growth")⟩], [], []⟩
    ⟨[⟨("a@b.c"), some ("u1"), none, some ("sub_1"), ("growth"),
        ("active"), none⟩],
      [⟨("u1"), ("a@b.c"), ("business")⟩], [], []⟩
    (by decide) (by decide) (by decide) (by decide)

/-- C3: processing the same event twice yields the same final store as
processing it once — the second, fault-free invocation returns exactly the
first invocation's result — and when the event id is already recorded in
the processed-event ledger the handler returns 200 immediately with the
store untouched. -/
theorem c3_idempotent_processing (w : World) (ev : StripeEvent) (st : Store)
    (secrets : List String) (ok : String → Bool)
    (hsig : verifyWithSecrets secrets ok ≠ none) :
    (st.events.contains ev.id = true →
      POSTHandler w noFaults true secrets ok ev st = (200, st)) ∧
    (POSTHandler w noFaults true secrets ok ev st).1 = 200 ∧
    POSTHandler w noFaults true secrets ok ev
        (POSTHandler w noFaults true secrets ok ev st).2
      = POSTHandler w noFaults true secrets ok ev st := by
  obtain ⟨s0, hs0⟩ := Option.ne_none_iff_exists'.mp hsig
  cases hct : st.events.contains ev.id with
  | true =>
    have hmem : ev.id ∈ st.events := by simpa using hct
    have hap : alreadyProcessed noFaults ev.id st = true := by
      simp [alreadyProcessed, noFaults, hmem]
    have hfirst : POSTHandler w noFaults true secrets ok ev st
        = (200, st) := by
      simp [POSTHandler, hs0, hap]
    refine ⟨(fun _ => hfirst), (by rw [hfirst]), ?_⟩
    rw [hfirst]
    exact hfirst
  | false =>
    have hnm : ev.id ∉ st.events := by simpa using hct
    have hap : alreadyProcessed noFaults ev.id st = false := by
      simp [alreadyProcessed, noFaults, hnm]
    obtain ⟨hok, hev⟩ := processEvent_noFaults_ok w ev.data st
    have hlw : noFaults.ledgerWrite = false := rfl
    cases hpe : processEvent w noFaults ev.data st with
    | error s1 => rw [hpe] at hok; cases hok
    | ok s1 =>
      have hev1 : s1.events = st.events := by
        rw [hpe] at hev
        simpa [resultStore] using hev
      have hmp : markProcessed noFaults ev.id s1
          = { s1 with events := st.events ++ [ev.id] } := by
        simp [markProcessed, hlw, hev1, hnm]
      have hfirst : POSTHandler w noFaults true secrets ok ev st
          = (200, { s1 with events := st.events ++ [ev.id] }) := by
        simp only [POSTHandler, hs0, hap, Bool.false_eq_true, if_false,
          Bool.not_true, hpe, hmp]
      have hap2 : alreadyProcessed noFaults ev.id
          ({ s1 with events := st.events ++ [ev.id] }) = true := by
        show (st.events ++ [ev.id]).contains ev.id = true
        simp
      have hsecond : POSTHandler w noFaults true secrets ok ev
          ({ s1 with events := st.events ++ [ev.id] })
          = (200, { s1 with events := st.events ++ [ev.id] }) := by
        simp [POSTHandler, hs0, hap2]
      refine ⟨(fun hc => by simp [hct] at hc), (by rw [hfirst]), ?_⟩
      rw [hfirst]
      exact hsecond

theorem c3_idempotent_processing_witness :
    POSTHandler ⟨fun sid => ⟨sid, none, none, ("active"), none⟩⟩ noFaults
        true [("whsec")] (fun _ => true)
        ⟨("evt_1"), .checkoutSessionCompleted
          ⟨some ("a@b.c"), none, none, some ("u1"), none, some ("growth"),
            some ("sub_1"), none⟩⟩
        ⟨[], [⟨("u1"), ("a@b.c"), ("pending")⟩], [("evt_1")], []⟩
      = (200, ⟨[], [⟨("u1"), ("a@b.c"), ("pending")⟩], [("evt_1")], []⟩) :=
  (c3_idempotent_processing
      ⟨fun sid => ⟨sid, none, none, ("active"), none⟩⟩
      ⟨("evt_1"), .checkoutSessionCompleted
        ⟨some ("a@b.c"), none, none, some ("u1"), none, some ("growth"),
          some ("sub_1"), none⟩⟩
      ⟨[], [⟨("u1"), ("a@b.c"), ("pending")⟩], [("evt_1")], []⟩
      [("whsec")] (fun _ => true) (by decide)).1 (by decide)

theorem processEvent_ledger_flags_irrelevant (w : World) (ev : EventData)
    (st : Store) :
    processEvent w ⟨true, true, false, false, false⟩ ev st
      = processEvent w noFaults ev st := by
  cases ev <;> rfl

/-- C10: failures of the processed-event ledger never change the handler's
outcome: with the ledger select throwing, `alreadyProcessed` reports false;
with both ledger calls throwing, the handler still responds 200 with the
ledger untouched, and the subscriptions, profiles and entitlement writes it
performs are exactly those of the fault-free run. -/
theorem c10_ledger_failure_harmless (w : World) (ev : StripeEvent)
    (st : Store) (secrets : List String) (ok : String → Bool)
    (e : String) :
    (alreadyProcessed ⟨true, true, false, false, false⟩ e st = false) ∧
    (verifyWithSecrets secrets ok ≠ none →
      (POSTHandler w ⟨true, true, false, false, false⟩ true secrets ok ev
          st).1 = 200 ∧
      (POSTHandler w ⟨true, true, false, false, false⟩ true secrets ok ev
          st).2.events = st.events) ∧
    (verifyWithSecrets secrets ok ≠ none →
      st.events.contains ev.id = false →
      ((POSTHandler w ⟨true, true, false, false, false⟩ true secrets ok ev
            st).2.subs
          = (POSTHandler w noFaults true secrets ok ev st).2.subs ∧
        (POSTHandler w ⟨true, true, false, false, false⟩ true secrets ok ev
            st).2.profiles
          = (POSTHandler w noFaults true secrets ok ev st).2.profiles ∧
        (POSTHandler w ⟨true, true, false, false, false⟩ true secrets ok ev
            st).2.log
          = (POSTHandler w noFaults true secrets ok ev st).2.log)) := by
  obtain ⟨hok, hev⟩ := processEvent_noFaults_ok w ev.data st
  refine ⟨rfl, ?_, ?_⟩
  · intro hsig
    obtain ⟨s0, hs0⟩ := Option.ne_none_iff_exists'.mp hsig
    cases hpe : processEvent w noFaults ev.data st with
    | error s1 => rw [hpe] at hok; cases hok
    | ok s1 =>
      have hev1 : s1.events = st.events := by
        rw [hpe] at hev
        simpa [resultStore] using hev
      have hpeL : processEvent w ⟨true, true, false, false, false⟩ ev.data st
          = .ok s1 := (processEvent_ledger_flags_irrelevant w ev.data st).trans hpe
      have hL : POSTHandler w ⟨true, true, false, false, false⟩ true secrets
          ok ev st = (200, s1) := by
        simp [POSTHandler, hs0, alreadyProcessed, hpeL, markProcessed]
      rw [hL]
      exact ⟨rfl, hev1⟩
  · intro hsig hct
    have hnm : ev.id ∉ st.events := by simpa using hct
    obtain ⟨s0, hs0⟩ := Option.ne_none_iff_exists'.mp hsig
    cases hpe : processEvent w noFaults ev.data st with
    | error s1 => rw [hpe] at hok; cases hok
    | ok s1 =>
      have hev1 : s1.events = st.events := by
        rw [hpe] at hev
        simpa [resultStore] using hev
      have hpeL : processEvent w ⟨true, true, false, false, false⟩ ev.data st
          = .ok s1 := (processEvent_ledger_flags_irrelevant w ev.data st).trans hpe
      have hL : POSTHandler w ⟨true, true, false, false, false⟩ true secrets
          ok ev st = (200, s1) := by
        simp [POSTHandler, hs0, alreadyProcessed, hpeL, markProcessed]
      have hap : alreadyProcessed noFaults ev.id st = false := by
        simp [alreadyProcessed, noFaults, hnm]
      have hlw : noFaults.ledgerWrite = false := rfl
      have hmp : markProcessed noFaults ev.id s1
          = { s1 with events := st.events ++ [ev.id] } := by
        simp [markProcessed, hlw, hev1, hnm]
      have hN : POSTHandler w noFaults true secrets ok ev st
          = (200, { s1 with events := st.events ++ [ev.id] }) := by
        simp only [POSTHandler, hs0, hap, Bool.false_eq_true, if_false,
          Bool.not_true, hpe, hmp]
      rw [hL, hN]
      exact ⟨rfl, rfl, rfl⟩

theorem c10_ledger_failure_harmless_witness :
    ((POSTHandler ⟨fun sid => ⟨sid, none, none, ("active"), none⟩⟩
        ⟨true, true, false, false, false⟩ true [("whsec")] (fun _ => true)
        ⟨("evt_1"), .invoicePaymentFailed ⟨some ("sub_1")⟩⟩
        ⟨[⟨("a@b.c"), some ("u1"), none, some ("sub_1"), ("growth"),
            ("active"), none⟩],
          [⟨("u1"), ("a@b.c"), ("growth")⟩], [("evt_1")], []⟩).1 = 200) ∧
    ((POSTHandler ⟨fun sid => ⟨sid, none, none, ("active"), none⟩⟩
        ⟨true, true, false, false, false⟩ true [("whsec")] (fun _ => true)
        ⟨("evt_1"), .invoicePaymentFailed ⟨some ("sub_1")⟩⟩
        ⟨[⟨("a@b.c"), some ("u1"), none, some ("sub_1"), ("growth"),
            ("active"), none⟩],
          [⟨("u1"), ("a@b.c"), ("growth")⟩], [("evt_1")], []⟩).2.events
      = [("evt_1")]) :=
  (c10_ledger_failure_harmless
      ⟨fun sid => ⟨sid, none, none, ("active"), none⟩⟩
      ⟨("evt_1"), .invoicePaymentFailed ⟨some ("sub_1")⟩⟩
      ⟨[⟨("a@b.c"), some ("u1"), none, some ("sub_1"), ("growth"),
          ("active"), none⟩],
        [⟨("u1"), ("a@b.c"), ("growth")⟩], [("evt_1")], []⟩
      [("whsec")] (fun _ => true) ("evt_1")).2.1 (by decide)
